import Mathlib

/-!
Shallow embedding of the ranking-and-curation pipeline of the
reading-summarizer repository (files `src/gad/digest.py` and
`src/gad/models.py`), together with theorems settling the specification
claims about it.

Conventions of the embedding:
* Python strings are Lean `String`s; slicing `s[:n]` is by code points,
  which matches Lean's character-based `List.take` on `s.data`.
* Python floats are embedded as exact IEEE-754 binary64 values: `F64`
  pairs a 53-bit mantissa with a power-of-two exponent, and `fmul` /
  `fadd` / `f64OfParts` perform correct rounding to nearest, ties to
  even.  The literals 0.4 and 0.3 are the *rounded* doubles (`FLOAT_04`,
  `FLOAT_03`), not 2/5 and 3/10, so `compositeScore` returns the exact
  rational value of the double CPython computes — including the cases
  where two decimal-equal scores differ in the last ulp.  The sub-score
  buckets (1.0 … 5.0 and the thresholds) are integers, hence exact.
* The ambient clock and `strptime` date parsing inside `_freshness_score`
  are abstracted by a parameter `daysOld : String → Option Int` mapping a
  date string to the whole-day difference from "now" (`none` when no
  format parses).  All theorems are universally quantified over it.
* Python `x or y` on strings (empty string falsy) is `pyOrStr`.
* `list.sort(key=...)` is embedded with `List.mergeSort`, which is a
  stable sort, matching CPython's Timsort stability guarantee.
-/

/-- A Python string is falsy iff empty: `a or b` on an optional string. -/
def pyOrStr (o : Option String) (dflt : String) : String :=
  match o with
  | none => dflt
  | some s => if s.isEmpty then dflt else s

/-- Python slicing `s[:n]` for `n ≥ 0`, by code points. -/
def pyTakeStr (n : Nat) (s : String) : String :=
  String.mk (s.data.take n)

/-- Python `needle in haystack` substring test on character lists. -/
def containsSub (needle : List Char) : List Char → Bool
  | [] => needle.isEmpty
  | c :: rest => needle.isPrefixOf (c :: rest) || containsSub needle rest

/-- Python `str.lower()` (the table keys and test data are ASCII). -/
def pyLower (s : String) : String :=
  String.mk (s.data.map Char.toLower)

/-- `DigestItemInput` from `src/gad/models.py`: one item fed into the
digest pipeline. -/
structure DigestItemInput where
  title : String
  url : String
  source : Option String := none
  date : Option String := none
  snippet : Option String := none
  content : Option String := none
  author : Option String := none
  tags : List String := []
deriving DecidableEq

/-- `_SOURCE_WEIGHTS` from `src/gad/digest.py`, in insertion (= iteration)
order of the Python dict. -/
def SOURCE_WEIGHTS : List (String × Nat) :=
  [("openai", 5), ("anthropic", 5), ("google", 5), ("deepmind", 5),
   ("meta", 5), ("microsoft", 4), ("nvidia", 4), ("arxiv", 4),
   ("huggingface", 4), ("stability", 4), ("mistral", 4), ("cohere", 4),
   ("together", 3), ("github", 3), ("techcrunch", 3), ("theverge", 3),
   ("venturebeat", 3), ("hacker news", 2), ("reddit", 2)]

/-- The `for key, weight in _SOURCE_WEIGHTS.items()` loop of
`_source_weight`: first key contained in the source or the url wins,
default weight 2. -/
def lookupWeight : List (String × Nat) → String → String → Nat
  | [], _, _ => 2
  | (key, weight) :: rest, src, url =>
    if containsSub key.data src.data || containsSub key.data url.data then weight
    else lookupWeight rest src url

/-- `_source_weight` from `src/gad/digest.py`. -/
def sourceWeight (item : DigestItemInput) : Nat :=
  lookupWeight SOURCE_WEIGHTS (pyLower (item.source.getD "")) (pyLower item.url)

/-- `_freshness_score` from `src/gad/digest.py`.  `daysOld` abstracts the
`strptime` attempts on `date[:19]` and the day difference from the current
UTC time; `none` models the `for … else: return 2.0` parse failure. -/
def freshnessScore (daysOld : String → Option Int) (item : DigestItemInput) : ℚ :=
  let d := item.date.getD ""
  if d.isEmpty then 2
  else
    match daysOld d with
    | none => 2
    | some days =>
      if days ≤ 1 then 5
      else if days ≤ 3 then 4
      else if days ≤ 7 then 3
      else if days ≤ 30 then 2
      else 1

/-- `item.content or item.snippet or ""` from `_content_length_score`
(also reused by the mock generator's read-time computation). -/
def contentText (item : DigestItemInput) : String :=
  pyOrStr item.content (pyOrStr item.snippet "")

/-- `_content_length_score` from `src/gad/digest.py`. -/
def contentLengthScore (item : DigestItemInput) : ℚ :=
  let length := (contentText item).length
  if length > 5000 then 5
  else if length > 2000 then 4
  else if length > 500 then 3
  else if length > 100 then 2
  else 1

/-! #### Exact binary64 arithmetic

The scoring formula runs on CPython floats.  A (finite, positive or zero)
binary64 value is represented exactly as `m * 2^e` with `m = 0` or
`2^52 ≤ m < 2^53`; `fmul` and `fadd` round the exact result to nearest,
ties to even, which is bit-for-bit IEEE-754 double arithmetic on the
range this program exercises (all scores lie in `[0.3, 5]` — no
negatives, overflow or subnormals). -/

/-- Bit length of a natural number (fuel-driven structural recursion;
the fuel `n` itself always suffices). -/
def bitlenGo : Nat → Nat → Nat
  | 0, _ => 0
  | fuel + 1, n => if n = 0 then 0 else bitlenGo fuel (n / 2) + 1

def bitlen (n : Nat) : Nat := bitlenGo n n

/-- A nonnegative binary64 value `m * 2^e`; produced only in normalized
form (`m = 0` or `2^52 ≤ m < 2^53`). -/
structure F64 where
  m : Nat
  e : Int
deriving DecidableEq

/-- Round `m / 2^k` to the nearest integer, ties to even (`k ≥ 1`). -/
def roundShift (m k : Nat) : Nat :=
  let q := m / 2 ^ k
  let r := m % 2 ^ k
  let half := 2 ^ (k - 1)
  if r < half then q
  else if half < r then q + 1
  else if q % 2 = 0 then q else q + 1

/-- Normalize `m * 2^e` to a 53-bit mantissa, rounding to nearest, ties
to even, when precision is lost. -/
def normF (m : Nat) (e : Int) : F64 :=
  if m = 0 then ⟨0, 0⟩
  else
    let l := bitlen m
    if l ≤ 53 then ⟨m * 2 ^ (53 - l), e - ((53 - l : Nat) : Int)⟩
    else
      let k := l - 53
      let q := roundShift m k
      if q = 2 ^ 53 then ⟨2 ^ 52, e + (k : Int) + 1⟩ else ⟨q, e + (k : Int)⟩

/-- IEEE-754 binary64 multiplication (exact product, then one rounding). -/
def fmul (a b : F64) : F64 := normF (a.m * b.m) (a.e + b.e)

/-- IEEE-754 binary64 addition (exact sum, then one rounding). -/
def fadd (a b : F64) : F64 :=
  if a.m = 0 then b
  else if b.m = 0 then a
  else
    let e := min a.e b.e
    normF (a.m * 2 ^ (a.e - e).toNat + b.m * 2 ^ (b.e - e).toNat) e

/-- The exact rational value of a binary64 pair. -/
def qpow2 (e : Int) : ℚ :=
  if 0 ≤ e then ((2 ^ e.toNat : Nat) : ℚ) else (((2 ^ (-e).toNat : Nat) : ℚ))⁻¹

def f64val (a : F64) : ℚ := (a.m : ℚ) * qpow2 a.e

/-- Conversion of a small natural number (exact for `n < 2^53`, which
covers every `int` this program turns into a float). -/
def f64ofNat (n : Nat) : F64 := normF n 0

/-- The binary64 value nearest to `p / q` (ties to even): the scaled
quotient keeps ≥ 56 bits and a sticky bit records a non-zero remainder,
so the single final rounding in `normF` is the correct one. -/
def f64OfParts (p q : Nat) : F64 :=
  if q = 0 then ⟨0, 0⟩
  else
    let t := bitlen q + 56
    let n := p * 2 ^ t
    let m0 := n / q
    if n % q = 0 then normF m0 (-(t : Int))
    else normF (2 * m0 + 1) (-(t : Int) - 1)

/-- The binary64 value nearest to a nonnegative rational (used to inject
the integral bucket scores, where it is exact). -/
def f64FromQ (x : ℚ) : F64 :=
  if x ≤ 0 then ⟨0, 0⟩ else f64OfParts x.num.toNat x.den

/-- The double denoted by the Python literal `0.3` (not 3/10). -/
def FLOAT_03 : F64 := f64OfParts 3 10

/-- The double denoted by the Python literal `0.4` (not 2/5). -/
def FLOAT_04 : F64 := f64OfParts 4 10

/-- The composite score computed inside `pre_rank`, as the binary64
value CPython produces:
`(0.4 * source_weight + 0.3 * freshness) + 0.3 * content_length`,
left-associated as in the source, every operation correctly rounded. -/
def compositeScoreF (daysOld : String → Option Int) (item : DigestItemInput) : F64 :=
  fadd
    (fadd (fmul FLOAT_04 (f64ofNat (sourceWeight item)))
      (fmul FLOAT_03 (f64FromQ (freshnessScore daysOld item))))
    (fmul FLOAT_03 (f64FromQ (contentLengthScore item)))

/-- The composite score as the exact rational value of that double
(doubles compare — in `sort` keys too — exactly as their rational
values, so ranking over these `ℚ` values is the program's ranking). -/
def compositeScore (daysOld : String → Option Int) (item : DigestItemInput) : ℚ :=
  f64val (compositeScoreF daysOld item)

/-- The `scored` list of `pre_rank`: `(score, idx, item)` triples in input
order. -/
def preRankScored (daysOld : String → Option Int) (items : List DigestItemInput) :
    List (ℚ × Nat × DigestItemInput) :=
  items.enum.map (fun p => (compositeScore daysOld p.2, p.1, p.2))

/-- The comparison used by `scored.sort(key=lambda t: (-t[0], t[1]))`:
`a` may come before `b` iff `(-a.score, a.idx) ≤ (-b.score, b.idx)`
lexicographically. -/
def scoredLe (a b : ℚ × Nat × DigestItemInput) : Bool :=
  decide (b.1 < a.1 ∨ (a.1 = b.1 ∧ a.2.1 ≤ b.2.1))

/-- The sorted `scored` list of `pre_rank` (Python `list.sort` is a stable
sort; with the idx tie-break the key order is total and antisymmetric, so
any sort returns this unique result). -/
def rankedScored (daysOld : String → Option Int) (items : List DigestItemInput) :
    List (ℚ × Nat × DigestItemInput) :=
  (preRankScored daysOld items).mergeSort scoredLe

/-- Python slicing `l[:k]` for an arbitrary (possibly negative) `int` `k`. -/
def pySlice (k : Int) (l : List α) : List α :=
  if 0 ≤ k then l.take k.toNat else l.take (l.length - (-k).toNat)

/-- `pre_rank` from `src/gad/digest.py` (the `logger.info` call has no
effect on the result). -/
def pre_rank (daysOld : String → Option Int) (items : List DigestItemInput)
    (top_k : Int) : List DigestItemInput :=
  (pySlice top_k (rankedScored daysOld items)).map (fun t => t.2.2)

/-- The full ranked item list (no truncation), for stating slicing facts. -/
def rankedItems (daysOld : String → Option Int) (items : List DigestItemInput) :
    List DigestItemInput :=
  (rankedScored daysOld items).map (fun t => t.2.2)

/-! ### SHA-256 (`hashlib.sha256`), executable over `Nat` bytes/words -/

/-- Truncate to a 32-bit word. -/
def w32 (n : Nat) : Nat := n % 4294967296

/-- 32-bit right rotation (argument assumed `< 2^32`). -/
def rotr (n x : Nat) : Nat := w32 ((x <<< (32 - n)) ||| (x >>> n))

/-- SHA-256 round constants. -/
def SHA_K : List Nat :=
  [1116352408, 1899447441, 3049323471, 3921009573, 961987163,
   1508970993, 2453635748, 2870763221, 3624381080, 310598401,
   607225278, 1426881987, 1925078388, 2162078206, 2614888103,
   3248222580, 3835390401, 4022224774, 264347078, 604807628,
   770255983, 1249150122, 1555081692, 1996064986, 2554220882,
   2821834349, 2952996808, 3210313671, 3336571891, 3584528711,
   113926993, 338241895, 666307205, 773529912, 1294757372,
   1396182291, 1695183700, 1986661051, 2177026350, 2456956037,
   2730485921, 2820302411, 3259730800, 3345764771, 3516065817,
   3600352804, 4094571909, 275423344, 430227734, 506948616,
   659060556, 883997877, 958139571, 1322822218, 1537002063,
   1747873779, 1955562222, 2024104815, 2227730452, 2361852424,
   2428436474, 2756734187, 3204031479, 3329325298]

/-- SHA-256 working state: eight 32-bit words. -/
structure H8 where
  a : Nat
  b : Nat
  c : Nat
  d : Nat
  e : Nat
  f : Nat
  g : Nat
  h : Nat
deriving DecidableEq

/-- SHA-256 initial hash value. -/
def shaInit : H8 :=
  ⟨1779033703, 3144134277, 1013904242, 2773480762,
   1359893119, 2600822924, 528734635, 1541459225⟩

def smallSigma0 (x : Nat) : Nat := rotr 7 x ^^^ rotr 18 x ^^^ (x >>> 3)

def smallSigma1 (x : Nat) : Nat := rotr 17 x ^^^ rotr 19 x ^^^ (x >>> 10)

def bigSigma0 (x : Nat) : Nat := rotr 2 x ^^^ rotr 13 x ^^^ rotr 22 x

def bigSigma1 (x : Nat) : Nat := rotr 6 x ^^^ rotr 11 x ^^^ rotr 25 x

def shaCh (e f g : Nat) : Nat := (e &&& f) ^^^ ((e ^^^ 0xffffffff) &&& g)

def shaMaj (a b c : Nat) : Nat := (b &&& c) ^^^ (a &&& b) ^^^ (a &&& c)

/-- One SHA-256 compression round. -/
def shaRound (s : H8) (k w : Nat) : H8 :=
  let t1 := w32 (s.h + bigSigma1 s.e + shaCh s.e s.f s.g + k + w)
  let t2 := w32 (bigSigma0 s.a + shaMaj s.a s.b s.c)
  ⟨w32 (t1 + t2), s.a, s.b, s.c, w32 (s.d + t1), s.e, s.f, s.g⟩

/-- Extend the 16-word block to the 64-word message schedule
(fuel-driven so that the recursion is structural). -/
def extendSchedule (acc : List Nat) : Nat → List Nat
  | 0 => acc
  | fuel + 1 =>
    let i := acc.length
    let nw := w32 (smallSigma1 (acc.getD (i - 2) 0) + acc.getD (i - 7) 0
      + smallSigma0 (acc.getD (i - 15) 0) + acc.getD (i - 16) 0)
    extendSchedule (acc ++ [nw]) fuel

/-- Combine 4 big-endian bytes at a time into 32-bit words. -/
def wordsOfBytes : List Nat → List Nat
  | b0 :: b1 :: b2 :: b3 :: rest =>
    (((b0 * 256 + b1) * 256 + b2) * 256 + b3) :: wordsOfBytes rest
  | _ => []

/-- Process one 64-byte block. -/
def compressBlock (st : H8) (block : List Nat) : H8 :=
  let w := extendSchedule (wordsOfBytes block) 48
  let fin := (SHA_K.zip w).foldl (fun s p => shaRound s p.1 p.2) st
  ⟨w32 (st.a + fin.a), w32 (st.b + fin.b), w32 (st.c + fin.c), w32 (st.d + fin.d),
   w32 (st.e + fin.e), w32 (st.f + fin.f), w32 (st.g + fin.g), w32 (st.h + fin.h)⟩

/-- Little-endian byte decomposition, fixed width. -/
def bytesLE : Nat → Nat → List Nat
  | 0, _ => []
  | n + 1, x => (x % 256) :: bytesLE n (x / 256)

/-- Big-endian byte decomposition, fixed width. -/
def bytesBE (n x : Nat) : List Nat := (bytesLE n x).reverse

/-- SHA-256 message padding: `0x80`, zeros to 56 mod 64, 8-byte
big-endian bit length. -/
def sha256Pad (msg : List Nat) : List Nat :=
  let padZeros := (64 - ((msg.length + 9) % 64)) % 64
  msg ++ [0x80] ++ List.replicate padZeros 0 ++ bytesBE 8 (msg.length * 8)

/-- Split into 64-byte blocks (fuel-driven structural recursion). -/
def chunk64 : Nat → List Nat → List (List Nat)
  | 0, _ => []
  | _, [] => []
  | fuel + 1, l => l.take 64 :: chunk64 fuel (l.drop 64)

/-- The eight 32-bit words of the SHA-256 digest of a byte string. -/
def sha256Words (msg : List Nat) : List Nat :=
  let padded := sha256Pad msg
  let fin := (chunk64 padded.length padded).foldl
    (fun st b => compressBlock st b) shaInit
  [fin.a, fin.b, fin.c, fin.d, fin.e, fin.f, fin.g, fin.h]

/-- The sixteen lowercase hex digits. -/
def hexDigits : List Char := "0123456789abcdef".data

def hexChar (n : Nat) : Char := hexDigits.getD n '0'

/-- Eight hex characters of a 32-bit word, most significant first. -/
def wordHex (x : Nat) : List Char :=
  (List.range 8).map (fun i => hexChar (x / 16 ^ (7 - i) % 16))

/-- Concatenation of a list of lists (structural, kernel-computable). -/
def flat : List (List α) → List α
  | [] => []
  | x :: xs => x ++ flat xs

/-- `hashlib.sha256(blob).hexdigest()`. -/
def hexdigest (msg : List Nat) : String :=
  String.mk (flat ((sha256Words msg).map wordHex))

/-! ### `json.dumps(keys, ensure_ascii=False).encode("utf-8")` -/

/-- UTF-8 encoding of one code point (bytes as `Nat < 256`). -/
def utf8EncodeCharNat (c : Char) : List Nat :=
  let n := c.toNat
  if n < 0x80 then [n]
  else if n < 0x800 then
    [0xC0 ||| (n >>> 6), 0x80 ||| (n &&& 0x3F)]
  else if n < 0x10000 then
    [0xE0 ||| (n >>> 12), 0x80 ||| ((n >>> 6) &&& 0x3F), 0x80 ||| (n &&& 0x3F)]
  else
    [0xF0 ||| (n >>> 18), 0x80 ||| ((n >>> 12) &&& 0x3F),
     0x80 ||| ((n >>> 6) &&& 0x3F), 0x80 ||| (n &&& 0x3F)]

/-- `str.encode("utf-8")`. -/
def utf8Bytes (s : String) : List Nat := flat (s.data.map utf8EncodeCharNat)

/-- `json.dumps` escaping of one character inside a string literal
(`ensure_ascii=False`: only quote, backslash and control chars escape). -/
def jsonEscapeChar (c : Char) : List Char :=
  if c = '"' then ['\\', '"']
  else if c = '\\' then ['\\', '\\']
  else if c = '\n' then ['\\', 'n']
  else if c = '\t' then ['\\', 't']
  else if c = '\r' then ['\\', 'r']
  else if c.toNat = 8 then ['\\', 'b']
  else if c.toNat = 12 then ['\\', 'f']
  else if c.toNat < 0x20 then
    '\\' :: 'u' :: '0' :: '0' :: [hexChar (c.toNat / 16), hexChar (c.toNat % 16)]
  else [c]

/-- A JSON string literal. -/
def jsonString (s : String) : List Char :=
  '"' :: flat (s.data.map jsonEscapeChar) ++ ['"']

/-- Join with the default `json.dumps` item separator *(comma, space)*. -/
def joinCommaSpace : List (List Char) → List Char
  | [] => []
  | [x] => x
  | x :: y :: rest => x ++ ',' :: ' ' :: joinCommaSpace (y :: rest)

/-- `json.dumps(keys, ensure_ascii=False)` for a list of strings. -/
def jsonDumpsStrings (keys : List String) : String :=
  String.mk ('[' :: joinCommaSpace (keys.map jsonString) ++ [']'])

/-! ### `_items_hash` -/

/-- The `f"{it.title}|{it.url}"` cache key of one item. -/
def itemKey (it : DigestItemInput) : String := it.title ++ "|" ++ it.url

/-- Python string `≤` (lexicographic on code points), structural and
kernel-computable. -/
def charListLe : List Char → List Char → Bool
  | _ :: _, [] => false
  | [], _ => true
  | x :: xs, y :: ys =>
    if x.toNat < y.toNat then true
    else if y.toNat < x.toNat then false
    else charListLe xs ys

def strLe (a b : String) : Bool := charListLe a.data b.data

/-- `sorted(f"{it.title}|{it.url}" for it in items)`: note this sorts the
*list* of keys — duplicates are kept, not collapsed to a set. -/
def sortedKeys (items : List DigestItemInput) : List String :=
  (items.map itemKey).mergeSort strLe

/-- SHA-256 of the serialized key list, truncated to 16 hex characters. -/
def hashOfKeys (keys : List String) : String :=
  pyTakeStr 16 (hexdigest (utf8Bytes (jsonDumpsStrings keys)))

/-- `_items_hash` from `src/gad/digest.py`. -/
def _items_hash (items : List DigestItemInput) : String :=
  hashOfKeys (sortedKeys items)

/-! ### Digest output models (`src/gad/models.py`) -/

/-- `DigestScores`: importance / credibility / freshness triple.  The
pydantic `ge=1, le=5` bounds are captured by `DigestScores.validB`. -/
structure DigestScores where
  importance : Int
  credibility : Int
  freshness : Int
deriving DecidableEq

/-- The pydantic field constraints of `DigestScores`. -/
def DigestScores.validB (s : DigestScores) : Bool :=
  1 ≤ s.importance && s.importance ≤ 5
    && 1 ≤ s.credibility && s.credibility ≤ 5
    && 1 ≤ s.freshness && s.freshness ≤ 5

/-- `TopStory`: full top-story card. -/
structure TopStory where
  id : String
  title : String
  subtitle : String
  url : String
  source : String
  date : String
  «section» : String
  one_liner : String
  bullets : List String
  why_it_matters : String
  action_items : List String
  read_time_min : Int
  scores : DigestScores
  tags : List String
  notes : String := ""
deriving DecidableEq

/-- The pydantic field constraints of `TopStory`: `bullets` has
`min_length=3, max_length=5` and the nested score bounds.  Note that
`section` is a plain `str` field in `models.py` — no constraint. -/
def TopStory.validB (t : TopStory) : Bool :=
  3 ≤ t.bullets.length && t.bullets.length ≤ 5 && t.scores.validB

/-- `SectionItem`: lightweight item inside a section group. -/
structure SectionItem where
  ref_id : String
  title : String
  url : String
  source : String
  date : String
  one_liner : String
  scores : DigestScores
  tags : List String := []
deriving DecidableEq

def SectionItem.validB (it : SectionItem) : Bool := it.scores.validB

/-- `Section`: a thematic group of items. -/
structure Section where
  name : String
  items : List SectionItem
deriving DecidableEq

def Section.validB (s : Section) : Bool := s.items.all SectionItem.validB

/-- `SearchSummary`. -/
structure SearchSummary where
  query_hint : String
  matching_tags : List String
  top_refs : List String
  one_sentence_map : String
deriving DecidableEq

/-- `DuplicateRecord`. -/
structure DuplicateRecord where
  title : String
  url : String
  merged_into : String
  reason : String
deriving DecidableEq

/-- `DigestStats`: aggregate counters (plain ints, no constraints). -/
structure DigestStats where
  items_in : Int
  items_kept : Int
  top_stories_count : Int
  duplicates_count : Int
deriving DecidableEq

/-- `DigestOutput`: root schema returned by `gad digest-json`. -/
structure DigestOutput where
  schema_version : String := "v1"
  generated_at : String
  stats : DigestStats
  top_stories : List TopStory
  sections : List Section
  tag_index : List (String × List String) := []
  search_summaries : List SearchSummary := []
  duplicates : List DuplicateRecord := []
deriving DecidableEq

/-- `DigestOutput.model_validate` on structurally present data: the
conjunction of every pydantic field constraint declared in
`src/gad/models.py`.  (Field presence and types are enforced by the Lean
structure itself; `models.py` declares *no* validator for
`stats.items_kept == len(top_stories)` and *no* closed label set for
`section`.) -/
def DigestOutput.validB (d : DigestOutput) : Bool :=
  d.top_stories.all TopStory.validB && d.sections.all Section.validB

/-! ### `_slugify` and `_mock_digest` (`src/gad/digest.py`) -/

/-- Strip characters satisfying `p` from both ends. -/
def stripWith (p : Char → Bool) (l : List Char) : List Char :=
  ((l.dropWhile p).reverse.dropWhile p).reverse

/-- The character class `[a-z0-9一-鿿]` of `_slugify`'s regex. -/
def slugAllowed (c : Char) : Bool :=
  (97 ≤ c.toNat && c.toNat ≤ 122) || (48 ≤ c.toNat && c.toNat ≤ 57)
    || (0x4e00 ≤ c.toNat && c.toNat ≤ 0x9fff)

/-- `re.sub(r"[^a-z0-9一-鿿]+", "-", text)`: each maximal run of
disallowed characters becomes a single hyphen.  The boolean flag records
whether the previous character was inside such a run. -/
def collapseRunsGo : Bool → List Char → List Char
  | _, [] => []
  | inRun, c :: rest =>
    if slugAllowed c then c :: collapseRunsGo false rest
    else if inRun then collapseRunsGo true rest
    else '-' :: collapseRunsGo true rest

/-- `_slugify` from `src/gad/digest.py` (`lower`, `strip`, collapse runs,
strip hyphens, first 60 chars).  Python's Unicode-aware `lower`/`strip`
are modelled by `Char.toLower` / `Char.isWhitespace`, which agree on the
data this pipeline handles. -/
def _slugify (text : String) : String :=
  let t := stripWith Char.isWhitespace (pyLower text).data
  let collapsed := collapseRunsGo false t
  String.mk ((stripWith (fun c => c = '-') collapsed).take 60)

/-- The story id of `_mock_digest`:
`sid = _slugify(item.title) or f"item-{i}"`. -/
def mockId (i : Nat) (item : DigestItemInput) : String :=
  let s := _slugify item.title
  if s.isEmpty then "item-" ++ toString i else s

/-- One `top_stories` entry synthesized by `_mock_digest`. -/
def mockStory (i : Nat) (item : DigestItemInput) : TopStory :=
  { id := mockId i item
    title := item.title
    subtitle := pyTakeStr 40 item.title
    url := item.url
    source := pyOrStr item.source "unknown"
    date := pyOrStr item.date "unknown"
    «section» := "Other"
    one_liner := pyTakeStr 26 item.title
    bullets :=
      [pyTakeStr 22 (pyOrStr item.snippet item.title),
       pyTakeStr 22 ("来源: " ++ pyOrStr item.source "unknown"),
       pyTakeStr 22 ("日期: " ++ pyOrStr item.date "unknown")]
    why_it_matters := "需要 LLM 生成详细分析"
    action_items := ["配置 OPENAI_API_KEY 以获取完整摘要"]
    read_time_min := (max 1 ((contentText item).length / 1500) : Nat)
    scores := ⟨3, 3, 3⟩
    tags := if item.tags.isEmpty then ["untagged"] else item.tags
    notes := "Mock 生成，仅结构占位" }

/-- One section entry synthesized by `_mock_digest`
(`item.tags or []` equals `item.tags` for lists). -/
def mockSectionItem (i : Nat) (item : DigestItemInput) : SectionItem :=
  { ref_id := mockId i item
    title := item.title
    url := item.url
    source := pyOrStr item.source "unknown"
    date := pyOrStr item.date "unknown"
    one_liner := pyTakeStr 26 item.title
    scores := ⟨3, 3, 3⟩
    tags := item.tags }

/-- `section_map.setdefault(section, []).append(sec_item)` over an
insertion-ordered association list (a Python dict). -/
def mapAppend : List (String × List SectionItem) → String → SectionItem →
    List (String × List SectionItem)
  | [], k, v => [(k, [v])]
  | (k', vs) :: rest, k, v =>
    if k' = k then (k', vs ++ [v]) :: rest else (k', vs) :: mapAppend rest k v

/-- `_mock_digest` from `src/gad/digest.py`; `today` models
`datetime.now().strftime("%Y-%m-%d")`.  The final
`DigestOutput.model_validate` always succeeds on this data
(`mock_digest_validB`), so it is the identity here. -/
def _mock_digest (today : String) (items : List DigestItemInput)
    (all_count : Int) : DigestOutput :=
  let top12 := items.take 12
  let top_stories := top12.enum.map (fun p => mockStory p.1 p.2)
  let secMap := top12.enum.foldl
    (fun m p => mapAppend m "Other" (mockSectionItem p.1 p.2)) []
  { schema_version := "v1"
    generated_at := today
    stats :=
      { items_in := all_count
        items_kept := (top_stories.length : Nat)
        top_stories_count := (top_stories.length : Nat)
        duplicates_count := 0 }
    top_stories := top_stories
    sections := secMap.map (fun kv => { name := kv.1, items := kv.2 })
    tag_index := []
    search_summaries := []
    duplicates := [] }

/-! ### Cache store and `generate_digest_json` (`src/gad/digest.py`) -/

/-- The on-disk cache, keyed by fingerprint.  A stored value `none`
models a file whose content does not parse/validate as `DigestOutput`
(a malformed artifact); `some d` models a well-formed artifact. -/
abbrev Cache := List (String × Option DigestOutput)

/-- Failures that escape the pipeline to the caller. -/
inductive GenError where
  /-- `DigestOutput.model_validate_json` raised inside `_cache_get`. -/
  | cacheParseFailure
deriving DecidableEq

/-- Whether a cache file for `h` exists, and its parse result. -/
def cacheFile (h : String) : Cache → Option (Option DigestOutput)
  | [] => none
  | (k, v) :: rest => if k = h then some v else cacheFile h rest

/-- `_cache_get` from `src/gad/digest.py`: if the file exists it is read
and `model_validate_json` is applied with **no** exception handling, so a
malformed artifact raises; a missing file returns `None`. -/
def _cache_get (h : String) (c : Cache) : Except GenError (Option DigestOutput) :=
  match cacheFile h c with
  | none => .ok none
  | some none => .error .cacheParseFailure
  | some (some d) => .ok (some d)

/-- `_cache_put`: overwrite (or create) the artifact for `h`. -/
def _cache_put (h : String) (d : DigestOutput) : Cache → Cache
  | [] => [(h, some d)]
  | (k, v) :: rest =>
    if k = h then (h, some d) :: rest else (k, v) :: _cache_put h d rest

/-- `generate_digest_json` from `src/gad/digest.py`.

External effects are parameters: `today` is the clock used by the mock
generator; `apiKey` is `settings.openai_api_key` (`none` or `""` are
falsy); `llm` is the combined outcome of the `try` block — the OpenAI
call, `json.loads` and `DigestOutput.model_validate` — whose exceptions
are all caught by the single `except`.  The function returns the digest
together with the cache state after the call; the only way it can fail is
the unguarded cache read. -/
def generate_digest_json (today : String) (apiKey : Option String)
    (llm : Except String DigestOutput) (items : List DigestItemInput)
    (all_count : Int) (use_cache : Bool) (cache : Cache) :
    Except GenError (DigestOutput × Cache) :=
  let h := _items_hash items
  let afterMiss : Except GenError (DigestOutput × Cache) :=
    if (apiKey.getD "").isEmpty then
      let result := _mock_digest today items all_count
      .ok (result, if use_cache then _cache_put h result cache else cache)
    else
      match llm with
      | .ok result =>
        .ok (result, if use_cache then _cache_put h result cache else cache)
      | .error _ =>
        let result := _mock_digest today items all_count
        .ok (result, if use_cache then _cache_put h result cache else cache)
  if use_cache then
    match _cache_get h cache with
    | .error e => .error e
    | .ok (some cached) => .ok (cached, cache)
    | .ok none => afterMiss
  else afterMiss

/-! ### Concrete data for scenario checks, counterexamples and witnesses -/

/-- Scenario A of the spec: source "OpenAI", date = today, 6000-char content. -/
def itemScenarioA : DigestItemInput :=
  { title := "New model", url := "https://openai.com/blog/new-model",
    source := some "OpenAI", date := some "2026-10-12",
    content := some (String.mk (List.replicate 6000 'x')) }

/-- Scenario B of the spec: unknown source, no date, 50-char snippet. -/
def itemScenarioB : DigestItemInput :=
  { title := "Note", url := "https://example.org/note",
    snippet := some (String.mk (List.replicate 50 'y')) }

/-- An item used to exhibit the duplicate-sensitivity of `_items_hash`. -/
def dupItem : DigestItemInput := { title := "a", url := "u" }

/-- Two distinct items sharing a title (they slugify to the same id). -/
def clashA : DigestItemInput := { title := "Same", url := "u1" }

/-- Two distinct items sharing a title (they slugify to the same id). -/
def clashB : DigestItemInput := { title := "Same", url := "u2" }

/-- A cache whose artifact for `[dupItem]`'s fingerprint is malformed. -/
def malformedCache : Cache := [(_items_hash [dupItem], none)]

/-- Modelled from the spec: the fixed closed set of section labels
(Models / Agents / Multimodal / Systems / Safety / Evaluation / Product /
OpenSource / Policy / Other).  `src/gad/models.py` declares no such
constraint, so this list exists only to compare code with spec. -/
def specSectionLabels : List String :=
  ["Models", "Agents", "Multimodal", "Systems", "Safety", "Evaluation", "Product",
   "OpenSource", "Policy", "Other"]

/-- A story with an out-of-vocabulary section label but valid bullets/scores. -/
def badStory : TopStory :=
  { id := "x", title := "t", subtitle := "t", url := "u", source := "s",
    date := "d", «section» := "Bogus", one_liner := "o",
    bullets := ["b1", "b2", "b3"], why_it_matters := "w",
    action_items := [], read_time_min := 1, scores := ⟨3, 3, 3⟩, tags := [],
    notes := "" }

/-- A digest with inconsistent stats (`items_kept = 99` vs one story) and a
bogus section label, which pydantic-as-written still accepts. -/
def badDigest : DigestOutput :=
  { schema_version := "v1", generated_at := "2026-01-01",
    stats := { items_in := 1, items_kept := 99, top_stories_count := 1,
               duplicates_count := 0 },
    top_stories := [badStory], sections := [], tag_index := [],
    search_summaries := [], duplicates := [] }

/-- Witness item. -/
def wItemA : DigestItemInput := { title := "A", url := "u1" }

/-- Witness item. -/
def wItemB : DigestItemInput := { title := "B", url := "u2" }

/-- Witness item list. -/
def wItems : List DigestItemInput := [wItemA, wItemB]

/-- Near-tie check, left item: unknown source (weight 2), no date
(freshness 2.0), 5-char snippet (content 1.0) — CPython score
`0.4*2 + 0.3*2.0 + 0.3*1.0 = 1.7`. -/
def itemTieX : DigestItemInput :=
  { title := "X", url := "https://x.example/a", snippet := some "short" }

/-- Near-tie check, right item: unknown source (weight 2), a 100-day-old
date (freshness 1.0), 150-char content (content 2.0) — CPython score
`0.4*2 + 0.3*1.0 + 0.3*2.0 = 1.7000000000000002`, one ulp above
`itemTieX`'s score although both are 17/10 in exact arithmetic. -/
def itemTieY : DigestItemInput :=
  { title := "Y", url := "https://y.example/a", date := some "2020-01-01",
    content := some (String.mk (List.replicate 150 'z')) }

/-! ### Helper lemmas about the embedding -/

theorem isEmpty_mk (l : List Char) : (String.mk l).isEmpty = l.isEmpty := by
  cases hb : (String.mk l).isEmpty with
  | true =>
    have h1 : String.mk l = "" := (String.isEmpty_iff _).mp hb
    have h2 : l = [] := congrArg String.data h1
    subst h2; rfl
  | false =>
    have h1 : String.mk l ≠ "" := by
      intro h; rw [h] at hb; cases hb
    cases l with
    | nil => exact absurd rfl h1
    | cons c cs => rfl

theorem isEmpty_replicate_succ (n : Nat) (c : Char) :
    (String.mk (List.replicate (n + 1) c)).isEmpty = false := by
  rw [isEmpty_mk, List.replicate_succ]; rfl

theorem contentText_eq_content (item : DigestItemInput) (s : String)
    (hc : item.content = some s) (hs : s.isEmpty = false) : contentText item = s := by
  simp [contentText, pyOrStr, hc, hs]

theorem contentText_eq_snippet (item : DigestItemInput) (s : String)
    (hc : item.content = none) (hs : item.snippet = some s)
    (hne : s.isEmpty = false) : contentText item = s := by
  simp [contentText, pyOrStr, hc, hs, hne]

theorem char_toNat_inj (a b : Char) (h : a.toNat = b.toNat) : a = b :=
  Char.eq_of_val_eq (UInt32.toNat.inj h)

theorem charListLe_total : ∀ a b, (charListLe a b || charListLe b a) = true := by
  intro a
  induction a with
  | nil => intro b; simp [charListLe]
  | cons x xs ih =>
    intro b
    cases b with
    | nil => simp [charListLe]
    | cons y ys =>
      by_cases h1 : x.toNat < y.toNat
      · simp [charListLe, h1]
      · by_cases h2 : y.toNat < x.toNat
        · simp [charListLe, h1, h2]
        · simp [charListLe, h1, h2, ih ys]

theorem charListLe_trans : ∀ a b c, charListLe a b = true → charListLe b c = true →
    charListLe a c = true := by
  intro a
  induction a with
  | nil => intro b c _ _; rfl
  | cons x xs ih =>
    intro b c hab hbc
    cases b with
    | nil => exact absurd hab (by simp [charListLe])
    | cons y ys =>
      cases c with
      | nil => exact absurd hbc (by simp [charListLe])
      | cons z zs =>
        simp only [charListLe] at hab hbc ⊢
        rcases Nat.lt_trichotomy x.toNat y.toNat with hxy | hxy | hxy
        · rcases Nat.lt_trichotomy y.toNat z.toNat with hyz | hyz | hyz
          · rw [if_pos (by omega)]
          · rw [if_pos (by omega)]
          · rw [if_neg (by omega), if_pos (by omega)] at hbc
            exact Bool.noConfusion hbc
        · rw [if_neg (by omega), if_neg (by omega)] at hab
          rcases Nat.lt_trichotomy y.toNat z.toNat with hyz | hyz | hyz
          · rw [if_pos (by omega)]
          · rw [if_neg (by omega), if_neg (by omega)] at hbc
            rw [if_neg (by omega), if_neg (by omega)]
            exact ih ys zs hab hbc
          · rw [if_neg (by omega), if_pos (by omega)] at hbc
            exact Bool.noConfusion hbc
        · rw [if_neg (by omega), if_pos (by omega)] at hab
          exact Bool.noConfusion hab

theorem charListLe_antisymm : ∀ a b, charListLe a b = true → charListLe b a = true →
    a = b := by
  intro a
  induction a with
  | nil =>
    intro b _ hba
    cases b with
    | nil => rfl
    | cons y ys => exact absurd hba (by simp [charListLe])
  | cons x xs ih =>
    intro b hab hba
    cases b with
    | nil => exact absurd hab (by simp [charListLe])
    | cons y ys =>
      simp only [charListLe] at hab hba
      rcases Nat.lt_trichotomy x.toNat y.toNat with hxy | hxy | hxy
      · rw [if_neg (by omega), if_pos (by omega)] at hba
        exact Bool.noConfusion hba
      · rw [if_neg (by omega), if_neg (by omega)] at hab
        rw [if_neg (by omega), if_neg (by omega)] at hba
        rw [char_toNat_inj x y hxy, ih ys hab hba]
      · rw [if_neg (by omega), if_pos (by omega)] at hab
        exact Bool.noConfusion hab

theorem strLe_trans : ∀ a b c : String, strLe a b = true → strLe b c = true →
    strLe a c = true :=
  fun a b c hab hbc => charListLe_trans a.data b.data c.data hab hbc

theorem strLe_total : ∀ a b : String, (strLe a b || strLe b a) = true :=
  fun a b => charListLe_total a.data b.data

theorem strLe_antisymm : ∀ a b : String, strLe a b = true → strLe b a = true →
    a = b := by
  intro a b hab hba
  cases a with
  | mk da =>
    cases b with
    | mk db =>
      rw [charListLe_antisymm da db hab hba]

theorem sortedKeys_eq_of_key_perm (l₁ l₂ : List DigestItemInput)
    (h : (l₁.map itemKey).Perm (l₂.map itemKey)) :
    sortedKeys l₁ = sortedKeys l₂ := by
  refine @List.eq_of_perm_of_sorted String (fun a b => strLe a b = true)
    ⟨strLe_antisymm⟩ (sortedKeys l₁) (sortedKeys l₂) ?_ ?_ ?_
  · exact ((List.mergeSort_perm (l₁.map itemKey) strLe).trans h).trans
      (List.mergeSort_perm (l₂.map itemKey) strLe).symm
  · exact List.sorted_mergeSort strLe_trans strLe_total (l₁.map itemKey)
  · exact List.sorted_mergeSort strLe_trans strLe_total (l₂.map itemKey)

theorem wordHex_length (x : Nat) : (wordHex x).length = 8 := by
  simp [wordHex]

theorem hexChar_mem (n : Nat) : hexChar n ∈ hexDigits := by
  unfold hexChar
  rcases Nat.lt_or_ge n hexDigits.length with h | h
  · rw [List.getD_eq_getElem hexDigits '0' h]
    exact List.getElem_mem h
  · rw [List.getD_eq_default hexDigits '0' h]
    decide

theorem flat_length_map_wordHex (ws : List Nat) :
    (flat (ws.map wordHex)).length = 8 * ws.length := by
  induction ws with
  | nil => rfl
  | cons w ws ih =>
    simp [flat, wordHex_length, ih]
    ring

theorem mem_flat {α : Type} (c : α) (L : List (List α)) :
    c ∈ flat L ↔ ∃ l ∈ L, c ∈ l := by
  induction L with
  | nil => simp [flat]
  | cons x xs ih => simp [flat, ih]

theorem sha256Words_length (m : List Nat) : (sha256Words m).length = 8 := rfl

theorem hexdigest_length (m : List Nat) : (hexdigest m).length = 64 := by
  rw [hexdigest, String.length_mk, flat_length_map_wordHex, sha256Words_length]

theorem hexdigest_hex (m : List Nat) : ∀ c ∈ (hexdigest m).data, c ∈ hexDigits := by
  intro c hc
  rw [hexdigest] at hc
  rw [mem_flat] at hc
  obtain ⟨l, hl, hcl⟩ := hc
  obtain ⟨w, _, rfl⟩ := List.mem_map.mp hl
  obtain ⟨i, _, rfl⟩ := List.mem_map.mp hcl
  exact hexChar_mem _

theorem hashOfKeys_length (keys : List String) : (hashOfKeys keys).length = 16 := by
  rw [hashOfKeys, pyTakeStr, String.length_mk, List.length_take]
  rw [show (hexdigest (utf8Bytes (jsonDumpsStrings keys))).data.length
      = (hexdigest (utf8Bytes (jsonDumpsStrings keys))).length from rfl]
  rw [hexdigest_length]
  decide

theorem hashOfKeys_hex (keys : List String) :
    ∀ c ∈ (hashOfKeys keys).data, c ∈ hexDigits := by
  intro c hc
  rw [hashOfKeys, pyTakeStr] at hc
  exact hexdigest_hex _ c (List.take_subset 16 _ hc)

theorem scoredLe_trans : ∀ a b c, scoredLe a b = true → scoredLe b c = true →
    scoredLe a c = true := by
  intro a b c hab hbc
  simp only [scoredLe, decide_eq_true_eq] at *
  rcases hab with h1 | ⟨h1, h1'⟩ <;> rcases hbc with h2 | ⟨h2, h2'⟩
  · exact Or.inl (lt_trans h2 h1)
  · exact Or.inl (h2 ▸ h1)
  · exact Or.inl (by rw [h1]; exact h2)
  · exact Or.inr ⟨h1.trans h2, le_trans h1' h2'⟩

theorem scoredLe_total : ∀ a b, (scoredLe a b || scoredLe b a) = true := by
  intro a b
  simp only [scoredLe, Bool.or_eq_true, decide_eq_true_eq]
  rcases lt_trichotomy a.1 b.1 with h | h | h
  · exact Or.inr (Or.inl h)
  · rcases Nat.le_total a.2.1 b.2.1 with h' | h'
    · exact Or.inl (Or.inr ⟨h, h'⟩)
    · exact Or.inr (Or.inr ⟨h.symm, h'⟩)
  · exact Or.inl (Or.inl h)

theorem preRankScored_idx_pairwise (daysOld : String → Option Int)
    (items : List DigestItemInput) :
    (preRankScored daysOld items).Pairwise (fun a b => a.2.1 ≠ b.2.1) := by
  unfold preRankScored
  rw [List.pairwise_map, List.pairwise_iff_getElem]
  intro i j hi hj hij
  rw [List.getElem_enum, List.getElem_enum]
  exact Nat.ne_of_lt hij

theorem rankedScored_pairwise (daysOld : String → Option Int)
    (items : List DigestItemInput) :
    (rankedScored daysOld items).Pairwise
      (fun a b => b.1 < a.1 ∨ (a.1 = b.1 ∧ a.2.1 < b.2.1)) := by
  have hle := List.sorted_mergeSort scoredLe_trans scoredLe_total
    (preRankScored daysOld items)
  have hperm := List.mergeSort_perm (preRankScored daysOld items) scoredLe
  have hne : (rankedScored daysOld items).Pairwise (fun a b => a.2.1 ≠ b.2.1) :=
    (List.Perm.pairwise_iff (fun h => h.symm) hperm).mpr
      (preRankScored_idx_pairwise daysOld items)
  refine (hle.and hne).imp ?_
  rintro a b ⟨hab, hne'⟩
  simp only [scoredLe, decide_eq_true_eq] at hab
  rcases hab with h | ⟨h, h'⟩
  · exact Or.inl h
  · exact Or.inr ⟨h, lt_of_le_of_ne h' hne'⟩

theorem rankedScored_length (daysOld : String → Option Int)
    (items : List DigestItemInput) :
    (rankedScored daysOld items).length = items.length := by
  simp [rankedScored, preRankScored]

/-! ### Claim theorems -/

/-- C1: for every item list and every `top_k ≥ 0`, `pre_rank` returns exactly
`min(top_k, len(items))` items (hence at most that many); the ranked list it
truncates is ordered by composite score descending, with ties among equal
scores broken by ascending original input position (the first-seen item
sorts first), and is a permutation of the scored input; and
`pre_rank(items, 0) = []` for any items.  Scores are the exact binary64
values the program computes, so "equal scores" is the program's float
equality (last-ulp-distinct near-ties are not ties, see
`composite_score_near_tie_ordering`). -/
theorem pre_rank_spec (daysOld : String → Option Int)
    (items : List DigestItemInput) (k : Int) (hk : 0 ≤ k) :
    (pre_rank daysOld items k).length = min k.toNat items.length
    ∧ pre_rank daysOld items 0 = []
    ∧ (rankedScored daysOld items).Pairwise
        (fun a b => b.1 < a.1 ∨ (a.1 = b.1 ∧ a.2.1 < b.2.1))
    ∧ (rankedScored daysOld items).Perm (preRankScored daysOld items)
    ∧ pre_rank daysOld items k = (rankedItems daysOld items).take k.toNat := by
  refine ⟨?_, ?_, rankedScored_pairwise daysOld items,
    List.mergeSort_perm (preRankScored daysOld items) scoredLe, ?_⟩
  · simp [pre_rank, pySlice, hk, rankedScored_length daysOld items]
  · simp [pre_rank, pySlice]
  · simp [pre_rank, pySlice, hk, rankedItems, List.map_take]

/-- C1 witness: `pre_rank_spec` applied to a concrete two-item list with
`top_k = 1`. -/
theorem pre_rank_spec_witness :
    (0 : Int) ≤ 1
    ∧ ((pre_rank (fun _ => none) wItems 1).length = min (1 : Int).toNat wItems.length
      ∧ pre_rank (fun _ => none) wItems 0 = []
      ∧ (rankedScored (fun _ => none) wItems).Pairwise
          (fun a b => b.1 < a.1 ∨ (a.1 = b.1 ∧ a.2.1 < b.2.1))
      ∧ (rankedScored (fun _ => none) wItems).Perm
          (preRankScored (fun _ => none) wItems)
      ∧ pre_rank (fun _ => none) wItems 1
          = (rankedItems (fun _ => none) wItems).take (1 : Int).toNat) :=
  ⟨by decide, pre_rank_spec (fun _ => none) wItems 1 (by decide)⟩

/-- C10: for every item list and every `top_k < 0`, `pre_rank` does not
raise (it is total): Python's `scored[:top_k]` removes the last `|top_k|`
entries of the ranked list, so the result is the score-ordered list
(ranked by the program's exact binary64 scores) truncated to
`max(0, len(items) + top_k)` entries. -/
theorem pre_rank_negative (daysOld : String → Option Int)
    (items : List DigestItemInput) (k : Int) (hneg : k < 0) :
    pre_rank daysOld items k
      = (rankedItems daysOld items).take (items.length - (-k).toNat)
    ∧ (pre_rank daysOld items k).length = ((items.length : Int) + k).toNat := by
  have hk : ¬ 0 ≤ k := not_le.mpr hneg
  constructor
  · simp [pre_rank, pySlice, hk, rankedItems, List.map_take,
      rankedScored_length daysOld items]
  · simp [pre_rank, pySlice, hk, rankedScored_length daysOld items]
    omega

/-- C10 witness: `pre_rank_negative` applied to a concrete two-item list
with `top_k = -1`. -/
theorem pre_rank_negative_witness :
    (-1 : Int) < 0
    ∧ (pre_rank (fun _ => none) wItems (-1)
        = (rankedItems (fun _ => none) wItems).take
            (wItems.length - (-(-1 : Int)).toNat)
      ∧ (pre_rank (fun _ => none) wItems (-1)).length
          = ((wItems.length : Int) + (-1)).toNat) :=
  ⟨by decide, pre_rank_negative (fun _ => none) wItems (-1) (by decide)⟩

/-- C2: for every list of items with pairwise-distinct `title|url` keys and
every permutation of it, the cache fingerprint of the permuted list equals
the fingerprint of the original; and for every item list whatsoever the
fingerprint is a 16-character lowercase-hexadecimal string. -/
theorem items_hash_perm_and_hex (l₁ l₂ : List DigestItemInput)
    (_hnd : (l₁.map itemKey).Nodup) (hperm : l₁.Perm l₂) :
    _items_hash l₁ = _items_hash l₂
    ∧ ∀ items : List DigestItemInput, (_items_hash items).length = 16
        ∧ ∀ c ∈ (_items_hash items).data, c ∈ hexDigits := by
  refine ⟨?_, fun items => ⟨hashOfKeys_length _, hashOfKeys_hex _⟩⟩
  rw [_items_hash, _items_hash, sortedKeys_eq_of_key_perm l₁ l₂ (hperm.map itemKey)]

/-- C2 witness: `items_hash_perm_and_hex` applied to a concrete duplicate-free
two-item list and its reversal. -/
theorem items_hash_perm_witness :
    (([wItemA, wItemB].map itemKey).Nodup
      ∧ ([wItemA, wItemB] : List DigestItemInput).Perm [wItemB, wItemA])
    ∧ (_items_hash [wItemA, wItemB] = _items_hash [wItemB, wItemA]
      ∧ ∀ items : List DigestItemInput, (_items_hash items).length = 16
          ∧ ∀ c ∈ (_items_hash items).data, c ∈ hexDigits) :=
  ⟨⟨by decide, by decide⟩, items_hash_perm_and_hex _ _ (by decide) (by decide)⟩

/-- C7 (amended): the cache fingerprint depends only on the *multiset* of
`title|url` keys — any two lists whose key lists are permutations of each
other produce the same fingerprint.  (It is not a function of the key *set*:
duplicating an item changes it, see the counterexample.) -/
theorem items_hash_key_multiset_invariant (l₁ l₂ : List DigestItemInput)
    (hperm : (l₁.map itemKey).Perm (l₂.map itemKey)) :
    _items_hash l₁ = _items_hash l₂ := by
  rw [_items_hash, _items_hash, sortedKeys_eq_of_key_perm l₁ l₂ hperm]

/-- C7 witness: `items_hash_key_multiset_invariant` applied to a concrete
pair of lists with permuted key lists. -/
theorem items_hash_multiset_witness :
    (([wItemB, wItemA].map itemKey).Perm ([wItemA, wItemB].map itemKey))
    ∧ _items_hash [wItemB, wItemA] = _items_hash [wItemA, wItemB] :=
  ⟨by decide, items_hash_key_multiset_invariant _ _ (by decide)⟩

set_option maxRecDepth 40000 in
/-- C7 counterexample: `[dupItem]` and `[dupItem, dupItem]` have the same
*set* of `title|url` keys (equal deduplicated key lists) but different
fingerprints — `sorted(...)` in `_items_hash` keeps duplicates, so the
fingerprint is not a function of the key set. -/
theorem items_hash_duplicate_counterexample :
    (([dupItem, dupItem].map itemKey).dedup = ([dupItem].map itemKey).dedup)
    ∧ _items_hash [dupItem, dupItem] ≠ _items_hash [dupItem] := by
  constructor
  · decide
  · have h2 : sortedKeys [dupItem, dupItem] = [itemKey dupItem, itemKey dupItem] := by
      unfold sortedKeys
      rw [show [dupItem, dupItem].map itemKey = [itemKey dupItem, itemKey dupItem]
        from rfl]
      exact List.mergeSort_of_sorted (by decide)
    have h1 : sortedKeys [dupItem] = [itemKey dupItem] := by
      unfold sortedKeys
      rw [show [dupItem].map itemKey = [itemKey dupItem] from rfl]
      exact List.mergeSort_of_sorted (by decide)
    rw [_items_hash, _items_hash, h1, h2]
    decide

set_option maxHeartbeats 2000000 in
/-- C3: for every `today`, every Top-K item list and every total count, the
deterministic fallback (`_mock_digest`) satisfies
`stats.items_kept = len(top_stories) = stats.top_stories_count`,
`stats.duplicates_count = 0`, `stats.items_in` equals the supplied total,
at most 12 stories are produced regardless of `top_k`, and every story has
section "Other", exactly 3 bullets, score triple (3,3,3) and a non-empty
id. -/
theorem mock_digest_spec (today : String) (items : List DigestItemInput)
    (all_count : Int) :
    (_mock_digest today items all_count).stats.items_kept
        = ((_mock_digest today items all_count).top_stories.length : Int)
    ∧ (_mock_digest today items all_count).stats.top_stories_count
        = ((_mock_digest today items all_count).top_stories.length : Int)
    ∧ (_mock_digest today items all_count).stats.duplicates_count = 0
    ∧ (_mock_digest today items all_count).stats.items_in = all_count
    ∧ (_mock_digest today items all_count).top_stories.length ≤ 12
    ∧ ∀ s ∈ (_mock_digest today items all_count).top_stories,
        s.«section» = "Other" ∧ s.bullets.length = 3 ∧ s.scores = ⟨3, 3, 3⟩
        ∧ s.id ≠ "" := by
  refine ⟨rfl, rfl, rfl, rfl, ?_, ?_⟩
  · simp [_mock_digest, List.length_take]
  · intro s hs
    simp only [_mock_digest, List.mem_map] at hs
    obtain ⟨p, _, rfl⟩ := hs
    refine ⟨rfl, rfl, rfl, ?_⟩
    show mockId p.1 p.2 ≠ ""
    rw [mockId]
    by_cases h : (_slugify p.2.title).isEmpty
    · rw [if_pos h]
      intro heq
      have hlen := congrArg String.length heq
      rw [String.length_append] at hlen
      simp at hlen
      exact absurd hlen.1 (by decide)
    · rw [if_neg h]
      intro heq
      exact h (heq ▸ rfl)

set_option maxHeartbeats 2000000 in
/-- C8 (amended): the fallback digest's TopStory ids are pairwise distinct
*provided* the derived id values (slug of the title, or the positional
`item-i` fallback) of the first 12 items are pairwise distinct.  They are
not distinct in general: two items with the same title receive the same id
(see the counterexample). -/
theorem mock_ids_nodup_of_distinct (today : String) (items : List DigestItemInput)
    (all_count : Int)
    (h : ((items.take 12).enum.map (fun p => mockId p.1 p.2)).Nodup) :
    ((_mock_digest today items all_count).top_stories.map TopStory.id).Nodup := by
  have heq : (_mock_digest today items all_count).top_stories.map TopStory.id
      = (items.take 12).enum.map (fun p => mockId p.1 p.2) := by
    show ((items.take 12).enum.map (fun p => mockStory p.1 p.2)).map TopStory.id
      = (items.take 12).enum.map (fun p => mockId p.1 p.2)
    rw [List.map_map]
    rfl
  rw [heq]
  exact h

set_option maxHeartbeats 2000000 in
set_option maxRecDepth 40000 in
/-- C8 counterexample: two items titled "Same" (distinct urls) both get the
id "same" in the fallback digest, so the ids are not pairwise distinct for
every input list. -/
theorem mock_ids_clash_counterexample :
    ((_mock_digest "2026-01-01" [clashA, clashB] 2).top_stories.map TopStory.id
      = ["same", "same"])
    ∧ ¬ ((_mock_digest "2026-01-01" [clashA, clashB] 2).top_stories.map
          TopStory.id).Nodup := by
  constructor <;> decide

set_option maxHeartbeats 2000000 in
/-- C8 witness: `mock_ids_nodup_of_distinct` applied to a concrete two-item
list with distinct titles. -/
theorem mock_ids_nodup_witness :
    ((wItems.take 12).enum.map (fun p => mockId p.1 p.2)).Nodup
    ∧ ((_mock_digest "2026-01-01" wItems 2).top_stories.map TopStory.id).Nodup :=
  ⟨by decide, mock_ids_nodup_of_distinct "2026-01-01" wItems 2 (by decide)⟩

/-- C4: whenever execution reaches the external generative call (an API key
is configured and, with caching on, the cache lookup was a miss), a failing
call (`llm = .error`) never propagates: `generate_digest_json` returns the
deterministic fallback digest for the same items and total count, and with
`use_cache = true` the returned digest — whether generated or fallback — is
written to the cache under the fingerprint computed at the start of the
call; with `use_cache = false` nothing is written. -/
theorem gdj_fallback_on_llm_failure (today : String) (k : String)
    (items : List DigestItemInput) (all_count : Int) (cache : Cache)
    (hk : k.isEmpty = false)
    (hmiss : cacheFile (_items_hash items) cache = none) :
    (∀ err, generate_digest_json today (some k) (.error err) items all_count true
        cache
      = .ok (_mock_digest today items all_count,
          _cache_put (_items_hash items) (_mock_digest today items all_count) cache))
    ∧ (∀ d, generate_digest_json today (some k) (.ok d) items all_count true cache
        = .ok (d, _cache_put (_items_hash items) d cache))
    ∧ (∀ err, generate_digest_json today (some k) (.error err) items all_count false
          cache
        = .ok (_mock_digest today items all_count, cache)) := by
  refine ⟨fun err => ?_, fun d => ?_, fun err => ?_⟩ <;>
    simp [generate_digest_json, _cache_get, hmiss, hk]

/-- C4 witness: `gdj_fallback_on_llm_failure` applied to a concrete item
list, api key "sk" and the empty cache. -/
theorem gdj_fallback_witness :
    ("sk".isEmpty = false ∧ cacheFile (_items_hash wItems) ([] : Cache) = none)
    ∧ ((∀ err, generate_digest_json "2026-01-01" (some "sk") (.error err) wItems 2
          true []
        = .ok (_mock_digest "2026-01-01" wItems 2,
            _cache_put (_items_hash wItems) (_mock_digest "2026-01-01" wItems 2) []))
      ∧ (∀ d, generate_digest_json "2026-01-01" (some "sk") (.ok d) wItems 2 true []
          = .ok (d, _cache_put (_items_hash wItems) d []))
      ∧ (∀ err, generate_digest_json "2026-01-01" (some "sk") (.error err) wItems 2
            false []
          = .ok (_mock_digest "2026-01-01" wItems 2, []))) :=
  ⟨⟨rfl, rfl⟩, gdj_fallback_on_llm_failure "2026-01-01" "sk" wItems 2 [] rfl rfl⟩

/-- C6: at the failing input — a cache holding an artifact that does not
parse/validate under the fingerprint of the requested items, with
`use_cache = true` — `generate_digest_json` raises the parse failure to the
caller instead of treating it as a cache miss: `_cache_get` applies
`model_validate_json` with no exception handling, and the call sits outside
the function's `try` block.  The spec says a malformed cached artifact
"should be treated as a cache miss, not a hard failure". -/
theorem cache_malformed_propagates :
    generate_digest_json "2026-01-01" none (.error "e") [dupItem] 1 true
        malformedCache
      = .error .cacheParseFailure := by
  simp [generate_digest_json, _cache_get, malformedCache, cacheFile]

/-- C5 counterexample: `badDigest` has `stats.items_kept = 99` with a single
top story whose section label "Bogus" is outside the spec's closed label
set, yet the validation constraints declared in `src/gad/models.py` accept
it — so validation does *not* enforce stats consistency or the closed
section set. -/
theorem validation_gap_counterexample :
    DigestOutput.validB badDigest = true
    ∧ badDigest.stats.items_kept ≠ (badDigest.top_stories.length : Int)
    ∧ ¬ (∀ s ∈ badDigest.top_stories, s.«section» ∈ specSectionLabels) := by
  refine ⟨by decide, by decide, by decide⟩

/-- C5 (amended): the schema validation declared in `src/gad/models.py`
accepts a (structurally complete) digest iff every TopStory has between 3
and 5 bullets and every score triple — in the top stories and in the
section items — has its three values in [1,5].  Required-field presence is
enforced at parse time by pydantic, but neither
`stats.items_kept == len(top_stories)` nor membership of `section` in the
closed label set is checked. -/
theorem digest_validB_iff (d : DigestOutput) :
    DigestOutput.validB d = true ↔
      ((∀ s ∈ d.top_stories, (3 ≤ s.bullets.length ∧ s.bullets.length ≤ 5)
          ∧ (1 ≤ s.scores.importance ∧ s.scores.importance ≤ 5)
          ∧ (1 ≤ s.scores.credibility ∧ s.scores.credibility ≤ 5)
          ∧ (1 ≤ s.scores.freshness ∧ s.scores.freshness ≤ 5))
        ∧ ∀ sec ∈ d.sections, ∀ it ∈ sec.items,
            (1 ≤ it.scores.importance ∧ it.scores.importance ≤ 5)
            ∧ (1 ≤ it.scores.credibility ∧ it.scores.credibility ≤ 5)
            ∧ (1 ≤ it.scores.freshness ∧ it.scores.freshness ≤ 5)) := by
  simp [DigestOutput.validB, TopStory.validB, DigestScores.validB, Section.validB,
    SectionItem.validB, List.all_eq_true, and_assoc]

set_option maxRecDepth 40000 in
/-- C9: the composite score is exactly the binary64 evaluation of
`0.4 * source_weight + 0.3 * freshness + 0.3 * content_volume` — the
literals being the rounded doubles `0.4` and `0.3`, each operation
correctly rounded, left-associated as in the source.  An item with source
"OpenAI", a date parsing to the current day, and 6000-character content
scores exactly 5.0; an item with an unknown source, no date, and a
50-character snippet scores exactly the double denoted by `1.7` — the
value CPython's `0.4*2 + 0.3*2 + 0.3*1` both prints as and compares equal
to `1.7`. -/
theorem composite_score_formula :
    (∀ daysOld item, compositeScore daysOld item
        = f64val (fadd
            (fadd (fmul FLOAT_04 (f64ofNat (sourceWeight item)))
              (fmul FLOAT_03 (f64FromQ (freshnessScore daysOld item))))
            (fmul FLOAT_03 (f64FromQ (contentLengthScore item)))))
    ∧ compositeScore (fun _ => some 0) itemScenarioA = 5
    ∧ compositeScore (fun _ => none) itemScenarioB = f64val (f64OfParts 17 10) := by
  refine ⟨fun _ _ => rfl, ?_, ?_⟩
  · have hw : sourceWeight itemScenarioA = 5 := by decide
    have hf : freshnessScore (fun _ => some 0) itemScenarioA = 5 := by decide
    have hcl : (contentText itemScenarioA).length = 6000 := by
      rw [contentText_eq_content itemScenarioA _ rfl (isEmpty_replicate_succ 5999 'x'),
        String.length_mk, List.length_replicate]
    have hc : contentLengthScore itemScenarioA = 5 := by
      rw [contentLengthScore, hcl]; norm_num
    rw [compositeScore, compositeScoreF, hw, hf, hc]
    have hF : fadd (fadd (fmul FLOAT_04 (f64ofNat 5)) (fmul FLOAT_03 (f64FromQ 5)))
        (fmul FLOAT_03 (f64FromQ 5)) = ⟨5629499534213120, -50⟩ := by decide
    rw [hF]
    simp only [f64val, qpow2]
    norm_num [show Int.toNat 50 = 50 from rfl]
  · have hw : sourceWeight itemScenarioB = 2 := by decide
    have hf : freshnessScore (fun _ => none) itemScenarioB = 2 := rfl
    have hcl : (contentText itemScenarioB).length = 50 := by
      rw [contentText_eq_snippet itemScenarioB _ rfl rfl (isEmpty_replicate_succ 49 'y'),
        String.length_mk, List.length_replicate]
    have hc : contentLengthScore itemScenarioB = 1 := by
      rw [contentLengthScore, hcl]; norm_num
    rw [compositeScore, compositeScoreF, hw, hf, hc]
    have hF : fadd (fadd (fmul FLOAT_04 (f64ofNat 2)) (fmul FLOAT_03 (f64FromQ 2)))
        (fmul FLOAT_03 (f64FromQ 1)) = ⟨7656119366529843, -52⟩ := by decide
    have hL : f64OfParts 17 10 = ⟨7656119366529843, -52⟩ := by decide
    rw [hF, hL]

set_option maxRecDepth 40000 in
/-- The binary64 embedding reproduces CPython's last-ulp distinctions:
`itemTieX` and `itemTieY` both score 17/10 in exact rational arithmetic,
but the program (and `compositeScore`) gives `itemTieX` the double `1.7`
and `itemTieY` the next double up, `1.7000000000000002`, so they are
*not* a tie and `itemTieY` ranks strictly above `itemTieX`. -/
theorem composite_score_near_tie_ordering :
    compositeScore (fun _ => some 100) itemTieX = f64val ⟨7656119366529843, -52⟩
    ∧ compositeScore (fun _ => some 100) itemTieY = f64val ⟨7656119366529844, -52⟩
    ∧ compositeScore (fun _ => some 100) itemTieX
        < compositeScore (fun _ => some 100) itemTieY := by
  have hx : compositeScoreF (fun _ => some 100) itemTieX
      = ⟨7656119366529843, -52⟩ := by decide
  have hy : compositeScoreF (fun _ => some 100) itemTieY
      = ⟨7656119366529844, -52⟩ := by decide
  refine ⟨by rw [compositeScore, hx], by rw [compositeScore, hy], ?_⟩
  rw [compositeScore, compositeScore, hx, hy]
  simp only [f64val, qpow2]
  norm_num [show Int.toNat 52 = 52 from rfl]
